import Mathlib

/-!
Verification of the fluxpro processing pipeline (src/fluxpro). The Python
source is shallowly embedded: polars LazyFrame stages become pure functions
on lists, Python floats are modeled exactly over `ℚ` (with `ℝ` where a
square root occurs), instrument datetimes are seconds since the epoch
(`ℤ`), and Python exceptions become an explicit `PyError` sum carried in
`Except`.
-/

namespace Fluxpro

/-- Python exceptions that the pipeline can raise. `valueError` carries the
message string used at the raise site; `typeError` models the TypeError of
an unsupported comparison (None < timedelta); `attributeError` carries the
missing attribute name; `indexError` models an out-of-range subscript. -/
inductive PyError where
  | valueError (msg : String)
  | typeError
  | attributeError (attr : String)
  | indexError
deriving DecidableEq, Repr

/-- Separator detection from process.py (lines 12-16): the separator is a
fixed lookup on the file extension, tab for ".dat" and comma otherwise.
The source reads only `input_file.suffix`, so the embedding takes the
suffix string directly. -/
def detect_separator (suffix : String) : String :=
  if suffix = ".dat" then "\t" else ","

/-- Floating-point mod with the sign convention of Python/polars `%`
(result has the sign of the divisor), modeled exactly on `ℚ`. -/
def fmod (a b : ℚ) : ℚ := a - b * ⌊a / b⌋

/-- Cycle/sample labeling from process.py `label_rows_by_time` (lines
32-50). Timestamps are seconds since the epoch; `dt.total_minutes()`
truncates the elapsed duration toward zero, which is `Int.tdiv` by 60.
`cycle_duration = sample_time * samples`; `cycle` and `sample` are the
floored quotients plus one, clipped above by `cycles` resp. `samples`;
the elapsed helper column is dropped, so each output row is
(datetime, cycle, sample). Float arithmetic is modeled exactly on `ℚ`. -/
def label_rows_by_time (ts : List ℤ) (cycles : ℤ) (sample_time : ℚ)
    (samples : ℤ) : List (ℤ × ℤ × ℤ) :=
  match ts with
  | [] => []
  | t0 :: _ =>
    let cycle_duration : ℚ := sample_time * (samples : ℚ)
    ts.map fun t =>
      let elapsed : ℤ := Int.tdiv (t - t0) 60
      (t, min (⌊(elapsed : ℚ) / cycle_duration⌋ + 1) cycles,
          min (⌊fmod (elapsed : ℚ) cycle_duration / sample_time⌋ + 1) samples)

/-- Elapsed time in minutes between two timestamps, as the specification
reads it: the exact (possibly fractional) number of minutes. -/
def elapsedMinutes (t0 t : ℤ) : ℚ := ((t : ℚ) - (t0 : ℚ)) / 60

/-- The cycle label as the specification states it:
clamp(floor(elapsed / cycle_duration) + 1, max = total_cycles) with
cycle_duration = minutes_per_sample * samples_per_cycle and elapsed the
exact elapsed minutes. -/
def specCycle (cycles m s : ℤ) (e : ℚ) : ℤ :=
  min (⌊e / ((m : ℚ) * (s : ℚ))⌋ + 1) cycles

/-- The sample label as the specification states it:
clamp(floor((elapsed mod cycle_duration) / minutes_per_sample) + 1,
max = samples_per_cycle). -/
def specSample (m s : ℤ) (e : ℚ) : ℤ :=
  min (⌊fmod e ((m : ℚ) * (s : ℚ)) / (m : ℚ)⌋ + 1) s

end Fluxpro

namespace Fluxpro

/-- Floor of a quotient of natural number casts is natural division. -/
theorem floor_natCast_div (a b : ℕ) : ⌊(a : ℚ) / (b : ℚ)⌋ = (a / b : ℕ) := by
  rcases Nat.eq_zero_or_pos b with hb | hb
  · subst hb; simp
  · have hb' : (0 : ℚ) < (b : ℚ) := by exact_mod_cast hb
    rw [Int.floor_eq_iff]
    constructor
    · rw [le_div_iff₀ hb']
      exact_mod_cast Nat.div_mul_le_self a b
    · rw [div_lt_iff₀ hb']
      have h1 : a < (a / b + 1) * b := by
        have h2 := Nat.mod_lt a hb
        have h3 := Nat.div_add_mod a b
        nlinarith
      exact_mod_cast h1

/-- fmod of natural number casts is the natural mod. -/
theorem fmod_natCast (a b : ℕ) : fmod (a : ℚ) (b : ℚ) = ((a % b : ℕ) : ℚ) := by
  unfold fmod
  rw [floor_natCast_div, Int.cast_natCast]
  have h : ((a % b : ℕ) : ℚ) + (b : ℚ) * ((a / b : ℕ) : ℚ) = (a : ℚ) := by
    exact_mod_cast congrArg (Nat.cast (R := ℚ)) (Nat.mod_add_div a b)
  linarith

/-- Truncating division of natural number casts agrees with natural
division. -/
theorem tdiv_natCast (a b : ℕ) : Int.tdiv (a : ℤ) (b : ℤ) = ((a / b : ℕ) : ℤ) := rfl

/-- Truncating division by 60 of a non-negative integer is natural
division of its toNat image. -/
theorem tdiv_sixty_toNat (x : ℤ) (h : 0 ≤ x) :
    Int.tdiv x 60 = ((x.toNat / 60 : ℕ) : ℤ) := by
  nth_rewrite 1 [← Int.toNat_of_nonneg h]
  exact tdiv_natCast x.toNat 60

/-- fmod where the first argument is a quotient of casts by 60: it equals
the natural mod by 60*b, divided by 60. -/
theorem fmod_div_sixty (a b : ℕ) :
    fmod ((a : ℚ) / 60) (b : ℚ) = ((a % (60 * b) : ℕ) : ℚ) / 60 := by
  unfold fmod
  rw [div_div, show ((60 : ℚ) * b) = ((60 * b : ℕ) : ℚ) by push_cast; ring,
    floor_natCast_div, Int.cast_natCast]
  have h : ((a % (60 * b) : ℕ) : ℚ) + ((60 * b : ℕ) : ℚ) * ((a / (60 * b) : ℕ) : ℚ)
      = (a : ℚ) := by
    exact_mod_cast congrArg (Nat.cast (R := ℚ)) (Nat.mod_add_div a (60 * b))
  push_cast at h ⊢
  linarith

/-- Label values rewritten with pure natural-number division, used both to
relate the code to the specification formula and to evaluate the labeler
on concrete inputs. -/
def natLabel (ts : List ℤ) (cycles : ℤ) (m s : ℕ) : List (ℤ × ℤ × ℤ) :=
  match ts with
  | [] => []
  | t0 :: _ =>
    ts.map fun t =>
      let a : ℕ := (t - t0).toNat
      (t, min (((a / 60 / (m * s) : ℕ) : ℤ) + 1) cycles,
          min (((a / 60 % (m * s) / m : ℕ) : ℤ) + 1) (s : ℤ))

/-- Pointwise form of the cycle floor computed by the code. -/
theorem code_cycle_floor (a m s : ℕ) :
    ⌊((((a / 60 : ℕ) : ℤ) : ℚ) / ((m : ℚ) * (s : ℚ)))⌋ = ((a / 60 / (m * s) : ℕ) : ℤ) := by
  rw [Int.cast_natCast, show ((m : ℚ) * (s : ℚ)) = ((m * s : ℕ) : ℚ) by push_cast; ring,
    floor_natCast_div]

/-- Pointwise form of the sample floor computed by the code. -/
theorem code_sample_floor (a m s : ℕ) :
    ⌊fmod (((a / 60 : ℕ) : ℤ) : ℚ) ((m : ℚ) * (s : ℚ)) / (m : ℚ)⌋
      = ((a / 60 % (m * s) / m : ℕ) : ℤ) := by
  rw [Int.cast_natCast, show ((m : ℚ) * (s : ℚ)) = ((m * s : ℕ) : ℚ) by push_cast; ring,
    fmod_natCast, floor_natCast_div]

/-- The code labeler equals its natural-division form whenever the first
row carries the minimal timestamp (in particular for rows in
non-decreasing order). Stated for an arbitrary rational sample time and
integer sample count that are casts of naturals, so it applies directly
to numeral arguments. -/
theorem label_eq_natLabel (t0 : ℤ) (rest : List ℤ) (cycles : ℤ) (q : ℚ)
    (z : ℤ) (m s : ℕ) (hq : q = (m : ℚ)) (hz : z = (s : ℤ))
    (hmin : ∀ t ∈ t0 :: rest, t0 ≤ t) :
    label_rows_by_time (t0 :: rest) cycles q z
      = natLabel (t0 :: rest) cycles m s := by
  subst hq hz
  unfold label_rows_by_time natLabel
  apply List.map_congr_left
  intro t ht
  have hnn : (0 : ℤ) ≤ t - t0 := sub_nonneg.2 (hmin t ht)
  dsimp only
  rw [show (((s : ℤ) : ℚ)) = (s : ℚ) from by push_cast; ring,
    tdiv_sixty_toNat (t - t0) hnn, code_cycle_floor, code_sample_floor]

/-- The specification labels, pointwise: the exact-elapsed-minutes formulas
reduce to the same natural-division values as the code. -/
theorem spec_labels_eq_nat (t0 t : ℤ) (cycles : ℤ) (m s : ℕ) (h : t0 ≤ t) :
    specCycle cycles m s (elapsedMinutes t0 t)
        = min (((((t - t0).toNat / 60 / (m * s) : ℕ) : ℤ)) + 1) cycles ∧
      specSample m s (elapsedMinutes t0 t)
        = min (((((t - t0).toNat / 60 % (m * s) / m : ℕ) : ℤ)) + 1) (s : ℤ) := by
  have hnn : (0 : ℤ) ≤ t - t0 := sub_nonneg.2 h
  set a : ℕ := (t - t0).toNat with ha
  have h1 : ((t - t0).toNat : ℤ) = t - t0 := Int.toNat_of_nonneg hnn
  have hts : (t : ℚ) - (t0 : ℚ) = (a : ℚ) := by
    have h2 := congrArg (fun z : ℤ => (z : ℚ)) h1
    push_cast at h2
    rw [ha]
    linarith
  constructor
  · unfold specCycle elapsedMinutes
    simp only [Int.cast_natCast]
    rw [hts, div_div, show ((60 : ℚ) * ((m : ℚ) * (s : ℚ))) = ((60 * (m * s) : ℕ) : ℚ) by
      push_cast; ring, floor_natCast_div, ← Nat.div_div_eq_div_mul a 60 (m * s)]
  · unfold specSample elapsedMinutes
    simp only [Int.cast_natCast]
    rw [hts, show ((m : ℚ) * (s : ℚ)) = ((m * s : ℕ) : ℚ) by push_cast; ring,
      fmod_div_sixty a (m * s), div_div,
      show ((60 : ℚ) * (m : ℚ)) = ((60 * m : ℕ) : ℚ) by push_cast; ring,
      floor_natCast_div, ← Nat.div_div_eq_div_mul (a % (60 * (m * s))) 60 m,
      Nat.mod_mul_right_div_self a 60 (m * s)]

/-- Shifting all timestamps by a constant shifts the datetime column and
leaves the cycle and sample labels unchanged. -/
theorem natLabel_shift (t0 : ℤ) (ts : List ℤ) (c : ℤ) (m s : ℕ) :
    natLabel (ts.map fun t => t0 + t) c m s
      = (natLabel ts c m s).map fun p => (t0 + p.1, p.2.1, p.2.2) := by
  cases ts with
  | nil => rfl
  | cons h rest =>
    unfold natLabel
    simp only [List.map_cons, List.map_map]
    congr 1
    · have e1 : t0 + h - (t0 + h) = h - h := by ring
      rw [e1]
    · apply List.map_congr_left
      intro t _
      simp only [Function.comp_apply]
      have e2 : t0 + t - (t0 + h) = t - h := by ring
      rw [e2]

/-- Combined form: labeling a shifted cons list equals the
natural-division labels of the unshifted list with shifted datetimes. -/
theorem label_natLabel_shift (t0 x : ℤ) (xs : List ℤ) (c : ℤ) (q : ℚ)
    (z : ℤ) (m s : ℕ) (hq : q = (m : ℚ)) (hz : z = (s : ℤ))
    (hmin : ∀ t ∈ x :: xs, x ≤ t) :
    label_rows_by_time ((x :: xs).map fun t => t0 + t) c q z
      = (natLabel (x :: xs) c m s).map fun p => (t0 + p.1, p.2.1, p.2.2) := by
  have hmin2 : ∀ t ∈ (t0 + x) :: xs.map (fun t => t0 + t), t0 + x ≤ t := by
    intro t ht
    rcases List.mem_cons.1 ht with rfl | ht2
    · exact le_refl _
    · rcases List.mem_map.1 ht2 with ⟨u, hu, rfl⟩
      have := hmin u (List.mem_cons_of_mem _ hu)
      linarith
  calc label_rows_by_time ((x :: xs).map fun t => t0 + t) c q z
      = label_rows_by_time ((t0 + x) :: xs.map (fun t => t0 + t)) c q z := by
        rw [List.map_cons]
    _ = natLabel ((t0 + x) :: xs.map (fun t => t0 + t)) c m s :=
        label_eq_natLabel _ _ c q z m s hq hz hmin2
    _ = natLabel ((x :: xs).map (fun t => t0 + t)) c m s := by
        rw [List.map_cons]
    _ = (natLabel (x :: xs) c m s).map (fun p => (t0 + p.1, p.2.1, p.2.2)) :=
        natLabel_shift t0 (x :: xs) c m s

/-- C1: for a standardized table whose rows are in non-decreasing
timestamp order and positive integer configuration parameters,
`label_rows_by_time` assigns every row exactly the specification labels
cycle = clamp(floor(elapsed / cycle_duration) + 1, max = total_cycles) and
sample = clamp(floor((elapsed mod cycle_duration) / minutes_per_sample)
+ 1, max = samples_per_cycle), with elapsed the exact elapsed minutes
since the first row; in particular no emitted cycle exceeds total_cycles
and no emitted sample exceeds samples_per_cycle. -/
theorem labeling_matches_spec (t0 : ℤ) (rest : List ℤ) (cycles : ℤ)
    (m s : ℕ) (hc : 0 < cycles) (hm : 0 < m) (hs : 0 < s)
    (hsorted : List.Sorted (· ≤ ·) (t0 :: rest)) :
    label_rows_by_time (t0 :: rest) cycles (m : ℚ) ((s : ℤ))
        = (t0 :: rest).map (fun t =>
            (t, specCycle cycles m s (elapsedMinutes t0 t),
                specSample m s (elapsedMinutes t0 t))) ∧
      ∀ p ∈ label_rows_by_time (t0 :: rest) cycles (m : ℚ) ((s : ℤ)),
        p.2.1 ≤ cycles ∧ p.2.2 ≤ (s : ℤ) := by
  have hmin : ∀ t ∈ t0 :: rest, t0 ≤ t := by
    intro t ht
    rcases List.mem_cons.1 ht with h | h
    · exact h.ge
    · exact (List.sorted_cons.1 hsorted).1 t h
  have hnat := label_eq_natLabel t0 rest cycles (m : ℚ) (s : ℤ) m s rfl rfl hmin
  constructor
  · rw [hnat]
    unfold natLabel
    apply List.map_congr_left
    intro t ht
    have hspec := spec_labels_eq_nat t0 t cycles m s (hmin t ht)
    dsimp only
    rw [hspec.1, hspec.2]
  · intro p hp
    rw [hnat] at hp
    unfold natLabel at hp
    rcases List.mem_map.1 hp with ⟨t, _, rfl⟩
    exact ⟨min_le_right _ _, min_le_right _ _⟩

/-- C1 witness: the labeling theorem applied to the concrete sorted table
[0, 30] with total_cycles = 3, minutes_per_sample = 1,
samples_per_cycle = 2. -/
theorem labeling_matches_spec_witness :
    (0 : ℤ) < 3 ∧ 0 < 1 ∧ 0 < 2 ∧ List.Sorted (· ≤ ·) [(0 : ℤ), 30] ∧
      (label_rows_by_time [(0 : ℤ), 30] 3 ((1 : ℕ) : ℚ) (((2 : ℕ) : ℤ))
          = [(0 : ℤ), 30].map (fun t =>
              (t, specCycle 3 1 2 (elapsedMinutes 0 t),
                  specSample 1 2 (elapsedMinutes 0 t))) ∧
        ∀ p ∈ label_rows_by_time [(0 : ℤ), 30] 3 ((1 : ℕ) : ℚ) (((2 : ℕ) : ℤ)),
          p.2.1 ≤ 3 ∧ p.2.2 ≤ ((2 : ℕ) : ℤ)) :=
  ⟨by decide, by decide, by decide, by decide,
    labeling_matches_spec 0 [30] 3 1 2 (by decide) (by decide) (by decide)
      (by decide)⟩

/-- The 20-row, 30-second-interval scenario input used by claim C2,
starting from timestamp t0 (seconds since the epoch). -/
def scenarioInput (t0 : ℤ) : List ℤ :=
  (List.range 20).map fun i => t0 + 30 * (i : ℤ)

/-- C2 counterexample: on 20 rows at exact 30-second intervals with
cycles = 3, minutes_per_sample = 1, samples_per_cycle = 2, the labeler
does not produce the cycle sequence
[1,1,1,1,1,2,2,2,2,3,3,3,3,3,3,3,3,3,3,3] and sample sequence
[1,1,2,2,2,1,1,2,2,1,1,2,2,1,1,2,2,1,1,2] stated by the specification.
Witnessed at start timestamp 0. -/
theorem scenario_label_counterexample :
    ¬(((label_rows_by_time (scenarioInput 0) 3 1 2).map fun p => p.2.1)
        = [1, 1, 1, 1, 1, 2, 2, 2, 2, 3, 3, 3, 3, 3, 3, 3, 3, 3, 3, 3] ∧
      ((label_rows_by_time (scenarioInput 0) 3 1 2).map fun p => p.2.2)
        = [1, 1, 2, 2, 2, 1, 1, 2, 2, 1, 1, 2, 2, 1, 1, 2, 2, 1, 1, 2]) := by
  have hlist : scenarioInput 0
      = [0, 30, 60, 90, 120, 150, 180, 210, 240, 270, 300, 330, 360, 390,
         420, 450, 480, 510, 540, 570] := by decide
  have hnat := label_eq_natLabel 0
    [30, 60, 90, 120, 150, 180, 210, 240, 270, 300, 330, 360, 390, 420,
     450, 480, 510, 540, 570] 3 1 2 1 2 (by norm_num) (by norm_num)
    (by decide)
  rw [hlist, hnat]
  decide

/-- C2 as the code actually behaves: for any start timestamp, 20 rows at
exact 30-second intervals with cycles = 3, minutes_per_sample = 1,
samples_per_cycle = 2 get the cycle sequence
[1,1,1,1,2,2,2,2,3,3,3,3,3,3,3,3,3,3,3,3] and the sample sequence
[1,1,2,2,1,1,2,2,1,1,2,2,1,1,2,2,1,1,2,2] (elapsed time is truncated to
whole minutes, and both labels are clamped at their maxima). -/
theorem scenario_label_amended (t0 : ℤ) :
    ((label_rows_by_time (scenarioInput t0) 3 1 2).map fun p => p.2.1)
        = [1, 1, 1, 1, 2, 2, 2, 2, 3, 3, 3, 3, 3, 3, 3, 3, 3, 3, 3, 3] ∧
      ((label_rows_by_time (scenarioInput t0) 3 1 2).map fun p => p.2.2)
        = [1, 1, 2, 2, 1, 1, 2, 2, 1, 1, 2, 2, 1, 1, 2, 2, 1, 1, 2, 2] := by
  have h0 : scenarioInput 0
      = 0 :: [30, 60, 90, 120, 150, 180, 210, 240, 270, 300, 330, 360, 390,
              420, 450, 480, 510, 540, 570] := by decide
  have hmapped : scenarioInput t0 = (scenarioInput 0).map fun t => t0 + t := by
    unfold scenarioInput
    rw [List.map_map]
    apply List.map_congr_left
    intro i _
    simp only [Function.comp_apply]
    ring
  rw [hmapped, h0, label_natLabel_shift t0 0
    [30, 60, 90, 120, 150, 180, 210, 240, 270, 300, 330, 360, 390, 420,
     450, 480, 510, 540, 570] 3 1 2 1 2 (by norm_num) (by norm_num)
    (by decide)]
  constructor
  · rw [List.map_map]
    have : ((fun p : ℤ × ℤ × ℤ => p.2.1) ∘ fun p : ℤ × ℤ × ℤ =>
        (t0 + p.1, p.2.1, p.2.2)) = fun p : ℤ × ℤ × ℤ => p.2.1 := rfl
    rw [this]
    decide
  · rw [List.map_map]
    have : ((fun p : ℤ × ℤ × ℤ => p.2.2) ∘ fun p : ℤ × ℤ × ℤ =>
        (t0 + p.1, p.2.1, p.2.2)) = fun p : ℤ × ℤ × ℤ => p.2.2 := rfl
    rw [this]
    decide

/-- One strptime directive of the candidate datetime formats used by
DataStandardizer._standardize_datetime: a literal character or one of the
numeric/meridiem fields %d %m %Y %H %M %S %I %p. -/
inductive FmtTok where
  | lit (c : Char)
  | day
  | month
  | year
  | hour
  | minute
  | second
  | hour12
  | amPm
deriving DecidableEq, Repr

/-- Numeric value of a decimal digit character, if it is one. -/
def digitVal (c : Char) : Option ℕ :=
  let n := c.toNat
  if 48 ≤ n ∧ n ≤ 57 then some (n - 48) else none

/-- Greedily consume up to w further digit characters, extending the
accumulator (chrono-style fixed-width numeric scanning). -/
def takeDigits : ℕ → ℕ → List Char → ℕ × List Char
  | 0, acc, ds => (acc, ds)
  | _ + 1, acc, [] => (acc, [])
  | w + 1, acc, d :: ds =>
    match digitVal d with
    | some v => takeDigits w (acc * 10 + v) ds
    | none => (acc, d :: ds)

/-- Parse a number of at most maxw digits (at least one), as the chrono
parser underlying polars does for numeric strptime fields. -/
def takeNum (maxw : ℕ) (ds : List Char) : Option (ℕ × List Char) :=
  match ds with
  | [] => none
  | d :: _ =>
    match digitVal d with
    | none => none
    | some _ => some (takeDigits maxw 0 ds)

/-- Datetime fields accumulated while parsing one timestamp string.
Fields missing from a format keep their defaults (chrono defaults the
seconds of a NaiveDateTime to 0). -/
structure DtParts where
  year : ℕ := 0
  month : ℕ := 1
  dayOfMonth : ℕ := 1
  hour : ℕ := 0
  minute : ℕ := 0
  second : ℕ := 0
  hour12 : Option ℕ := none
  pm : Option Bool := none
deriving DecidableEq, Repr

/-- Run a strptime format over the characters of one cell, with the range
checks chrono applies per field; the whole input must be consumed, as
polars str.to_datetime in strict mode requires. -/
def parseFmt : List FmtTok → List Char → DtParts → Option DtParts
  | [], [], p => some p
  | [], _ :: _, _ => none
  | .lit c :: fs, d :: ds, p => if d = c then parseFmt fs ds p else none
  | .lit _ :: _, [], _ => none
  | .day :: fs, ds, p =>
    match takeNum 2 ds with
    | some (n, rest) =>
      if 1 ≤ n ∧ n ≤ 31 then parseFmt fs rest { p with dayOfMonth := n } else none
    | none => none
  | .month :: fs, ds, p =>
    match takeNum 2 ds with
    | some (n, rest) =>
      if 1 ≤ n ∧ n ≤ 12 then parseFmt fs rest { p with month := n } else none
    | none => none
  | .year :: fs, ds, p =>
    match takeNum 4 ds with
    | some (n, rest) => parseFmt fs rest { p with year := n }
    | none => none
  | .hour :: fs, ds, p =>
    match takeNum 2 ds with
    | some (n, rest) =>
      if n ≤ 23 then parseFmt fs rest { p with hour := n } else none
    | none => none
  | .minute :: fs, ds, p =>
    match takeNum 2 ds with
    | some (n, rest) =>
      if n ≤ 59 then parseFmt fs rest { p with minute := n } else none
    | none => none
  | .second :: fs, ds, p =>
    match takeNum 2 ds with
    | some (n, rest) =>
      if n ≤ 59 then parseFmt fs rest { p with second := n } else none
    | none => none
  | .hour12 :: fs, ds, p =>
    match takeNum 2 ds with
    | some (n, rest) =>
      if 1 ≤ n ∧ n ≤ 12 then parseFmt fs rest { p with hour12 := some n } else none
    | none => none
  | .amPm :: fs, c1 :: c2 :: ds, p =>
    if (c1 = 'A' ∨ c1 = 'a') ∧ (c2 = 'M' ∨ c2 = 'm') then
      parseFmt fs ds { p with pm := some false }
    else if (c1 = 'P' ∨ c1 = 'p') ∧ (c2 = 'M' ∨ c2 = 'm') then
      parseFmt fs ds { p with pm := some true }
    else none
  | .amPm :: _, _, _ => none

/-- Gregorian leap-year test. -/
def isLeap (y : ℕ) : Bool := (y % 4 = 0 ∧ y % 100 ≠ 0) ∨ y % 400 = 0

/-- Number of days in a month of the proleptic Gregorian calendar. -/
def daysInMonth (y m : ℕ) : ℕ :=
  if m = 2 then (if isLeap y then 29 else 28)
  else if m = 4 ∨ m = 6 ∨ m = 9 ∨ m = 11 then 30
  else 31

/-- Days between 1970-01-01 and the given civil date (standard
days-from-civil computation over the proleptic Gregorian calendar). -/
def daysFromCivil (y : ℤ) (m d : ℕ) : ℤ :=
  let yAdj : ℤ := if m ≤ 2 then y - 1 else y
  let era : ℤ := Int.fdiv yAdj 400
  let yoe : ℤ := yAdj - era * 400
  let mp : ℕ := (m + 9) % 12
  let doy : ℤ := ((153 * mp + 2) / 5 : ℕ) + (d : ℤ) - 1
  let doe : ℤ := yoe * 365 + Int.fdiv yoe 4 - Int.fdiv yoe 100 + doy
  era * 146097 + doe - 719468

/-- Resolve the 24-hour clock hour of parsed fields: with %I and %p the
hour is taken from the 12-hour value and meridiem (12AM is hour 0), as
chrono resolves it. -/
def resolveHour (p : DtParts) : ℕ :=
  match p.hour12, p.pm with
  | some i, some isPm => i % 12 + (if isPm then 12 else 0)
  | _, _ => p.hour

/-- Turn parsed fields into an epoch-seconds timestamp, rejecting a day
number beyond the month length exactly as date construction does. -/
def mkDatetime (p : DtParts) : Option ℤ :=
  if p.dayOfMonth ≤ daysInMonth p.year p.month then
    some (daysFromCivil (p.year : ℤ) p.month p.dayOfMonth * 86400
      + (resolveHour p : ℤ) * 3600 + (p.minute : ℤ) * 60 + (p.second : ℤ))
  else none

/-- Parse one cell with one candidate format. -/
def parseCell (fmt : List FmtTok) (s : String) : Option ℤ :=
  parseFmt fmt s.data {} >>= mkDatetime

/-- Parse a whole column with one candidate format; any failing cell makes
the strict polars cast raise, modeled as none. -/
def parseColumn (fmt : List FmtTok) (col : List String) : Option (List ℤ) :=
  col.mapM (parseCell fmt)

/-- The fixed ordered candidate formats of
DataStandardizer._standardize_datetime (lines 41-47):
"%d/%m/%Y %H:%M", "%m/%d/%Y %H:%M", "%Y-%m-%d %H:%M:%S",
"%Y/%m/%d %H:%M:%S", "%m/%d/%Y %I:%M:%S %p". -/
def possible_formats : List (List FmtTok) :=
  [[.day, .lit '/', .month, .lit '/', .year, .lit ' ', .hour, .lit ':', .minute],
   [.month, .lit '/', .day, .lit '/', .year, .lit ' ', .hour, .lit ':', .minute],
   [.year, .lit '-', .month, .lit '-', .day, .lit ' ', .hour, .lit ':', .minute,
    .lit ':', .second],
   [.year, .lit '/', .month, .lit '/', .day, .lit ' ', .hour, .lit ':', .minute,
    .lit ':', .second],
   [.month, .lit '/', .day, .lit '/', .year, .lit ' ', .hour12, .lit ':', .minute,
    .lit ':', .second, .lit ' ', .amPm]]

/-- Decidable equality for Except values, so concrete pipeline outcomes
can be checked by decide. -/
instance exceptDecEq {ε α : Type} [DecidableEq ε] [DecidableEq α] :
    DecidableEq (Except ε α) := fun x y =>
  match x, y with
  | .ok a, .ok b =>
    if h : a = b then isTrue (by rw [h])
    else isFalse (by intro hc; injection hc; contradiction)
  | .error e, .error f =>
    if h : e = f then isTrue (by rw [h])
    else isFalse (by intro hc; injection hc; contradiction)
  | .ok _, .error _ => isFalse (fun hc => Except.noConfusion hc)
  | .error _, .ok _ => isFalse (fun hc => Except.noConfusion hc)

/-- Successive timestamp differences, with the first null dropped
(polars diff with null_behavior drop). -/
def diffs (ts : List ℤ) : List ℤ := List.zipWith (fun a b => a - b) ts.tail ts

/-- max(diff) - min(diff) of the successive differences; none models the
null that polars max/min return on an empty series, whose .item() is
Python None. -/
def diffRange (ts : List ℤ) : Option ℤ :=
  match diffs ts with
  | [] => none
  | d :: ds => some (ds.foldl max d - ds.foldl min d)

/-- Candidate-format loop of _standardize_datetime (lines 52-63): the
first format that parses the whole column is checked for a diff range
under one hour; a parse failure moves to the next candidate, an exhausted
list raises ValueError("unexpected datetime format"), and a column with
fewer than two parsed rows makes the range comparison compare Python None
with a timedelta, a TypeError. -/
def tryFormats : List (List FmtTok) → List String → Except PyError (List ℤ)
  | [], _ => .error (.valueError "unexpected datetime format")
  | fmt :: rest, col =>
    match parseColumn fmt col with
    | none => tryFormats rest col
    | some ts =>
      match diffRange ts with
      | none => .error .typeError
      | some r => if r < 3600 then .ok ts else tryFormats rest col

/-- DataStandardizer._standardize_datetime on the first column of the
table (already renamed to "datetime"): returns the parsed epoch-second
timestamps or the error the Python method raises. -/
def standardize_datetime (col : List String) : Except PyError (List ℤ) :=
  tryFormats possible_formats col

/-- Modelled from the spec: the candidate-selection rule exactly as claim
C4 words it — return the table parsed with the first candidate for which
parsing the whole column succeeds and max(diff) − min(diff) is under one
hour, and fail with UnrecognizedDatetimeFormat when no candidate
satisfies both conditions. -/
def firstMatchAux : List (List FmtTok) → List String → Except PyError (List ℤ)
  | [], _ => .error (.valueError "unexpected datetime format")
  | fmt :: rest, col =>
    match parseColumn fmt col with
    | none => firstMatchAux rest col
    | some ts =>
      match diffRange ts with
      | some r => if r < 3600 then .ok ts else firstMatchAux rest col
      | none => firstMatchAux rest col

/-- Modelled from the spec: datetime standardization as claim C4 states
it, over the same fixed candidate list as the code. -/
def datetimeFirstMatch (col : List String) : Except PyError (List ℤ) :=
  firstMatchAux possible_formats col

/-- Parsing a column preserves its length. -/
theorem parseColumn_length (fmt : List FmtTok) (col : List String)
    (ts : List ℤ) (h : parseColumn fmt col = some ts) :
    ts.length = col.length := by
  induction col generalizing ts with
  | nil =>
    unfold parseColumn at h
    simp only [List.mapM_nil, Option.pure_def, Option.some.injEq] at h
    subst h
    rfl
  | cons c cs ih =>
    unfold parseColumn at h ih
    rw [List.mapM_cons] at h
    rcases Option.bind_eq_some.1 h with ⟨t, _, h2⟩
    rcases Option.bind_eq_some.1 h2 with ⟨ts2, hts2, h3⟩
    simp only [Option.pure_def, Option.some.injEq] at h3
    subst h3
    simp [ih ts2 hts2]

/-- The diff range of a column with fewer than two rows is null. -/
theorem diffRange_short (ts : List ℤ) (h : ts.length ≤ 1) :
    diffRange ts = none := by
  match ts, h with
  | [], _ => rfl
  | [t], _ => rfl

/-- The diff range of a column with at least two rows is a value. -/
theorem diffRange_isSome (ts : List ℤ) (h : 2 ≤ ts.length) :
    ∃ r, diffRange ts = some r := by
  match ts, h with
  | t1 :: t2 :: rest, _ => exact ⟨_, rfl⟩

/-- On a single-cell column, the format loop raises TypeError as soon as
some candidate parses the cell. -/
theorem tryFormats_single (fmts : List (List FmtTok)) (s : String)
    (h : ∃ fmt ∈ fmts, (parseColumn fmt [s]).isSome = true) :
    tryFormats fmts [s] = .error .typeError := by
  induction fmts with
  | nil => rcases h with ⟨f, hf, _⟩; cases hf
  | cons fmt rest ih =>
    unfold tryFormats
    cases hp : parseColumn fmt [s] with
    | none =>
      apply ih
      rcases h with ⟨f, hf, hsome⟩
      rcases List.mem_cons.1 hf with rfl | hf2
      · rw [hp] at hsome; cases hsome
      · exact ⟨f, hf2, hsome⟩
    | some ts =>
      dsimp only
      have hlen : ts.length = 1 := by
        rw [parseColumn_length fmt [s] ts hp]; rfl
      rw [diffRange_short ts (by omega)]

/-- On a column of at least two rows, the format loop agrees with the
first-match rule of the specification. -/
theorem tryFormats_ge_two (col : List String) (hcol : 2 ≤ col.length)
    (fmts : List (List FmtTok)) :
    tryFormats fmts col = firstMatchAux fmts col := by
  induction fmts with
  | nil => rfl
  | cons fmt rest ih =>
    unfold tryFormats firstMatchAux
    cases hp : parseColumn fmt col with
    | none => exact ih
    | some ts =>
      dsimp only
      have hlen : 2 ≤ ts.length := by
        rw [parseColumn_length fmt col ts hp]; exact hcol
      rcases diffRange_isSome ts hlen with ⟨r, hr⟩
      rw [hr]
      by_cases hlt : r < 3600
      · simp [hlt]
      · simp [hlt, ih]

/-- C4 counterexample: the single-row column ["01/02/2025 11:00"] is
parsed by a candidate format, yet _standardize_datetime raises a
TypeError (the null diff range of a one-row series compared against the
one-hour timedelta), not UnrecognizedDatetimeFormat as the claim states
for every parseable single-row column. -/
theorem datetime_single_row_counterexample :
    (∃ fmt ∈ possible_formats,
        (parseColumn fmt ["01/02/2025 11:00"]).isSome = true) ∧
      standardize_datetime ["01/02/2025 11:00"] = .error .typeError ∧
      PyError.typeError ≠ .valueError "unexpected datetime format" := by
  refine ⟨?_, by decide, by decide⟩
  decide

/-- C4 as the code actually behaves: the candidate loop tries the fixed
ordered format list; on a column of at least two rows it returns the
table parsed with the first candidate whose parse succeeds with diff
range under one hour and raises UnrecognizedDatetimeFormat when no
candidate satisfies both; the unparseable single-row column
["1/2/2025 11:00AM"] raises UnrecognizedDatetimeFormat; but a single-row
column that some candidate parses raises a TypeError instead. -/
theorem datetime_selection_amended :
    standardize_datetime ["1/2/2025 11:00AM"]
        = .error (.valueError "unexpected datetime format") ∧
      (∀ s : String,
        (∃ fmt ∈ possible_formats, (parseColumn fmt [s]).isSome = true) →
          standardize_datetime [s] = .error .typeError) ∧
      ∀ col : List String, 2 ≤ col.length →
        standardize_datetime col = datetimeFirstMatch col := by
  refine ⟨by decide, fun s h => tryFormats_single possible_formats s h,
    fun col hcol => tryFormats_ge_two col hcol possible_formats⟩

/-- C4 witness: the amended theorem applied to the parseable single-row
column ["02/01/2025 10:30"] and to the two-row column
["10/02/2025 21:00", "10/02/2025 21:01"]. -/
theorem datetime_selection_amended_witness :
    (∃ fmt ∈ possible_formats,
        (parseColumn fmt ["02/01/2025 10:30"]).isSome = true) ∧
      standardize_datetime ["02/01/2025 10:30"] = .error .typeError ∧
      2 ≤ (["10/02/2025 21:00", "10/02/2025 21:01"] : List String).length ∧
      standardize_datetime ["10/02/2025 21:00", "10/02/2025 21:01"]
        = datetimeFirstMatch ["10/02/2025 21:00", "10/02/2025 21:01"] :=
  ⟨by decide,
    datetime_selection_amended.2.1 "02/01/2025 10:30" (by decide),
    by decide,
    datetime_selection_amended.2.2 ["10/02/2025 21:00", "10/02/2025 21:01"]
      (by decide)⟩

/-- Suffix test on strings by their character lists, used for the
column-name unit checks (evaluates by kernel reduction, unlike
String.endsWith): the last pat-many characters must equal pat. -/
def strEndsWith (s pat : String) : Bool :=
  decide (List.drop (s.data.length - pat.data.length) s.data = pat.data)

/-- No name ends both in "ppm" and in "ppb". -/
theorem endsWith_ppm_ppb_exclusive (name : String)
    (h1 : strEndsWith name "ppm" = true) (h2 : strEndsWith name "ppb" = true) :
    False := by
  have e1 := of_decide_eq_true h1
  have e2 := of_decide_eq_true h2
  have hk : ("ppm".data).length = ("ppb".data).length := by decide
  rw [hk] at e1
  have := e1.symm.trans e2
  exact absurd this (by decide)

/-- Gas constant R in L·atm·K⁻¹·mol⁻¹ from
DataStandardizer._standardize_units (line 96). -/
def R_gas : ℚ := 0.082057366080960

/-- Temperature T in kelvin (line 97). -/
def T_standard : ℚ := 298.15

/-- Pressure P in atm (line 98). -/
def P_standard : ℚ := 1

/-- Ideal-gas molar volume Vm = R·T/P in L/mol (line 99). -/
def molar_volume : ℚ := R_gas * T_standard / P_standard

/-- The molar volume is positive (hence nonzero). -/
theorem molar_volume_pos : 0 < molar_volume := by
  norm_num [molar_volume, R_gas, T_standard, P_standard]

/-- Scale factor per column name (lines 106-110): 1e-6 for a name ending
in "ppm", 1e-9 for "ppb", and 0 otherwise. -/
def unit_scale (column : String) : ℚ :=
  if strEndsWith column "ppm" then 1e-6
  else if strEndsWith column "ppb" then 1e-9
  else 0

/-- A standardized gas table: the datetime column (epoch seconds) plus one
named value column per gas, with nulls where the float cast failed. -/
structure GasFrame where
  datetimes : List ℤ
  cols : List (String × List (Option ℚ))
deriving DecidableEq, Repr

/-- DataStandardizer._standardize_units (lines 95-115): every non-datetime
column is multiplied by its scale factor and divided by the molar volume;
the datetime column is skipped. -/
def standardize_units (f : GasFrame) : GasFrame :=
  { f with
    cols := f.cols.map fun nv =>
      if nv.1 = "datetime" then nv
      else (nv.1, nv.2.map (Option.map fun v => v * unit_scale nv.1 / molar_volume)) }

/-- C5: unit standardization multiplies every ppm-labelled column by
1e-6/Vm and every ppb-labelled column by 1e-9/Vm with
Vm = R·T/P, R = 0.082057366080960, T = 298.15, P = 1; a raw ppm value X
becomes X·1e-6/Vm, and multiplying back by Vm·1e6 reproduces X exactly
over the rationals. -/
theorem unit_conversion_matches_spec (f : GasFrame) (name : String)
    (vals : List (Option ℚ)) (hmem : (name, vals) ∈ f.cols) :
    (strEndsWith name "ppm" = true →
        (name, vals.map (Option.map fun v => v * ((1e-6 : ℚ) / molar_volume)))
          ∈ (standardize_units f).cols) ∧
      (strEndsWith name "ppb" = true →
        (name, vals.map (Option.map fun v => v * ((1e-9 : ℚ) / molar_volume)))
          ∈ (standardize_units f).cols) ∧
      (∀ X : ℚ, X * ((1e-6 : ℚ) / molar_volume) * molar_volume * 1e6 = X) ∧
      (∀ X : ℚ, X * ((1e-9 : ℚ) / molar_volume) * molar_volume * 1e9 = X) := by
  have hvm : molar_volume ≠ 0 := ne_of_gt molar_volume_pos
  refine ⟨fun hppm => ?_, fun hppb => ?_, fun X => ?_, fun X => ?_⟩
  · have hne : name ≠ "datetime" := by
      rintro rfl; exact absurd hppm (by decide)
    have hmem2 := List.mem_map_of_mem (fun nv : String × List (Option ℚ) =>
      if nv.1 = "datetime" then nv
      else (nv.1, nv.2.map (Option.map fun v => v * unit_scale nv.1 / molar_volume))) hmem
    unfold standardize_units
    simpa [if_neg hne, unit_scale, hppm, mul_div_assoc] using hmem2
  · have hne : name ≠ "datetime" := by
      rintro rfl; exact absurd hppb (by decide)
    have hnoppm : ¬(strEndsWith name "ppm" = true) := fun h =>
      endsWith_ppm_ppb_exclusive name h hppb
    have hmem2 := List.mem_map_of_mem (fun nv : String × List (Option ℚ) =>
      if nv.1 = "datetime" then nv
      else (nv.1, nv.2.map (Option.map fun v => v * unit_scale nv.1 / molar_volume))) hmem
    unfold standardize_units
    simpa [if_neg hne, unit_scale, hnoppm, hppb, mul_div_assoc] using hmem2
  · field_simp
    ring
  · field_simp
    ring

/-- C5 witness: the unit-conversion theorem applied to a one-column frame
whose column "CO2_ppm" holds the single raw value 1. -/
theorem unit_conversion_matches_spec_witness :
    (("CO2_ppm", [some (1 : ℚ)])
        ∈ (GasFrame.mk [] [("CO2_ppm", [some (1 : ℚ)])]).cols) ∧
      strEndsWith "CO2_ppm" "ppm" = true ∧
      ("CO2_ppm", [some ((1 : ℚ) * ((1e-6 : ℚ) / molar_volume))])
        ∈ (standardize_units (GasFrame.mk [] [("CO2_ppm", [some (1 : ℚ)])])).cols :=
  ⟨List.Mem.head _, by decide,
    (unit_conversion_matches_spec (GasFrame.mk [] [("CO2_ppm", [some (1 : ℚ)])])
      "CO2_ppm" [some (1 : ℚ)] (List.Mem.head _)).1 (by decide)⟩

/-- One row of the unpivoted Long Measurement table: (cycle, sample,
datetime, gas, concentration), concentration in mol/L. -/
structure LongRow where
  cycle : ℤ
  sample : ℤ
  datetime : ℤ
  gas : String
  concentration : Option ℚ
deriving DecidableEq, Repr

/-- A Long Measurement row with concentration replaced by flux. -/
structure FluxRow where
  cycle : ℤ
  sample : ℤ
  datetime : ℤ
  gas : String
  flux : Option ℚ
deriving DecidableEq, Repr

/-- Elemental nitrogen mass in g/mol (process.py line 82). -/
def nitrogen_mass : ℚ := 14.006747

/-- Elemental carbon mass in g/mol (line 83). -/
def carbon_mass : ℚ := 12.0111

/-- Elemental oxygen mass in g/mol (line 84). -/
def oxygen_mass : ℚ := 15.99943

/-- The fixed molar-mass table joined on gas (lines 85-103). -/
def molar_masses : List (String × ℚ) :=
  [("NH3", nitrogen_mass), ("NO2", nitrogen_mass), ("N2O", nitrogen_mass),
   ("O3", oxygen_mass), ("HONO", nitrogen_mass), ("NO", nitrogen_mass),
   ("NOY", nitrogen_mass), ("NOY-NO", nitrogen_mass), ("CO", carbon_mass),
   ("CO2", carbon_mass), ("CH4", carbon_mass)]

/-- Scale factor to nanograms (line 104). -/
def nano : ℚ := 1e9

/-- compute_flux from process.py (lines 78-117): an inner join of the rows
with the molar-mass table on gas (rows whose gas has no entry are
dropped), then flux = concentration * flow / soil_surface_area *
molar_mass * nano; concentration and molar_mass are dropped from the
result. The chamber_volume parameter is accepted and unused, as in the
source. -/
def compute_flux (rows : List LongRow)
    (flow chamber_volume soil_surface_area : ℚ) : List FluxRow :=
  rows.filterMap fun r =>
    (molar_masses.lookup r.gas).map fun mm =>
      { cycle := r.cycle, sample := r.sample, datetime := r.datetime,
        gas := r.gas,
        flux := r.concentration.map fun c =>
          c * flow / soil_surface_area * mm * nano }

/-- C6: compute_flux assigns molar masses per gas from the fixed table
(N mass for NH3, NO2, N2O, HONO, NO, NOY, NOY-NO; C mass for CO, CO2,
CH4; O mass for O3), replaces each joined row's concentration by
flux = concentration * flow_rate / soil_surface_area * molar_mass * 1e9,
drops rows whose gas has no molar-mass entry, and on the scenario row
(concentration 1.0, flow 2.0, soil_surface_area 0.005, gas CO2, any
chamber volume) yields flux = 1.0 * 2.0 / 0.005 * 12.0111 * 1e9. -/
theorem flux_formula_matches_spec :
    (molar_masses.lookup "NH3" = some nitrogen_mass ∧
      molar_masses.lookup "NO2" = some nitrogen_mass ∧
      molar_masses.lookup "N2O" = some nitrogen_mass ∧
      molar_masses.lookup "HONO" = some nitrogen_mass ∧
      molar_masses.lookup "NO" = some nitrogen_mass ∧
      molar_masses.lookup "NOY" = some nitrogen_mass ∧
      molar_masses.lookup "NOY-NO" = some nitrogen_mass ∧
      molar_masses.lookup "CO" = some carbon_mass ∧
      molar_masses.lookup "CO2" = some carbon_mass ∧
      molar_masses.lookup "CH4" = some carbon_mass ∧
      molar_masses.lookup "O3" = some oxygen_mass) ∧
      (∀ (rows : List LongRow) (flow cv ssa : ℚ) (r : LongRow) (mm : ℚ),
        r ∈ rows → molar_masses.lookup r.gas = some mm →
          ({ cycle := r.cycle, sample := r.sample, datetime := r.datetime,
             gas := r.gas,
             flux := r.concentration.map fun c =>
               c * flow / ssa * mm * nano } : FluxRow)
            ∈ compute_flux rows flow cv ssa) ∧
      (∀ (rows : List LongRow) (flow cv ssa : ℚ),
        compute_flux rows flow cv ssa
          = compute_flux
              (rows.filter fun r => (molar_masses.lookup r.gas).isSome)
              flow cv ssa) ∧
      (∀ cv : ℚ,
        (compute_flux [⟨1, 2, 0, "CO2", some 1⟩] 2 cv 0.005).map
            (fun r => r.flux)
          = [some ((1 : ℚ) * 2 / 0.005 * 12.0111 * 1e9)]) := by
  refine ⟨⟨rfl, rfl, rfl, rfl, rfl, rfl, rfl, rfl, rfl, rfl, rfl⟩,
    fun rows flow cv ssa r mm hr hmm => ?_, fun rows flow cv ssa => ?_,
    fun cv => rfl⟩
  · exact List.mem_filterMap.2 ⟨r, hr, by rw [hmm]; rfl⟩
  · induction rows with
    | nil => rfl
    | cons r rest ih =>
      cases hl : (molar_masses.lookup r.gas) with
      | none =>
        have hsome : ((molar_masses.lookup r.gas).isSome : Bool) = false := by
          rw [hl]; rfl
        simp only [compute_flux, List.filterMap_cons, List.filter_cons, hl,
          hsome, Bool.false_eq_true, if_false]
        exact ih
      | some mm =>
        have hsome : ((molar_masses.lookup r.gas).isSome : Bool) = true := by
          rw [hl]; rfl
        have ih2 := ih
        unfold compute_flux at ih2 ⊢
        simp only [List.filterMap_cons, List.filter_cons, hl, hsome,
          Option.isSome_some, if_true, Option.map_some']
        rw [ih2]

/-- C6 witness: the flux theorem applied to a single CO2 row with
concentration 1, flow 2, chamber volume 0.01, soil surface area 0.005. -/
theorem flux_formula_matches_spec_witness :
    ((⟨1, 2, 0, "CO2", some 1⟩ : LongRow) ∈ [(⟨1, 2, 0, "CO2", some 1⟩ : LongRow)]) ∧
      molar_masses.lookup "CO2" = some carbon_mass ∧
      ({ cycle := 1, sample := 2, datetime := 0, gas := "CO2",
         flux := (some (1 : ℚ)).map fun c =>
           c * 2 / 0.005 * carbon_mass * nano } : FluxRow)
        ∈ compute_flux [⟨1, 2, 0, "CO2", some 1⟩] 2 0.01 0.005 :=
  ⟨List.Mem.head _, rfl,
    flux_formula_matches_spec.2.1 [⟨1, 2, 0, "CO2", some 1⟩] 2 0.01 0.005
      ⟨1, 2, 0, "CO2", some 1⟩ carbon_mass (List.Mem.head _) rfl⟩

/-- A Flux Record joined with its blank average and corrected flux. -/
structure CorrRow where
  cycle : ℤ
  sample : ℤ
  datetime : ℤ
  gas : String
  flux : Option ℚ
  flux_blank_avg : Option ℚ
  flux_corrected : Option ℚ
deriving DecidableEq, Repr

/-- The null-ignoring mean that polars pl.mean computes for a group:
null when no non-null value exists, otherwise the arithmetic mean of the
non-null values. -/
def meanOpt (vs : List (Option ℚ)) : Option ℚ :=
  let xs := vs.filterMap id
  if xs.length = 0 then none else some (xs.sum / (xs.length : ℚ))

/-- Null-propagating subtraction of polars column arithmetic. -/
def optSub : Option ℚ → Option ℚ → Option ℚ
  | some a, some b => some (a - b)
  | _, _ => none

/-- SampleBlankHandler.run (blank_handler.py lines 23-47): per (cycle,
gas), the mean flux of the rows with sample == index is joined (left)
onto the rows with sample != index, and flux_corrected = flux −
flux_blank_avg. The group-by/left-join pair is denoted pointwise: each
kept row looks up the mean over the blank rows sharing its cycle and
gas, null when that group is absent. -/
def sample_blank_run (index : ℤ) (rows : List FluxRow) : List CorrRow :=
  (rows.filter fun r => decide (r.sample ≠ index)).map fun r =>
    let avg := meanOpt ((rows.filter fun b =>
      decide (b.sample = index ∧ b.cycle = r.cycle ∧ b.gas = r.gas)).map
        fun b => b.flux)
    { cycle := r.cycle, sample := r.sample, datetime := r.datetime,
      gas := r.gas, flux := r.flux, flux_blank_avg := avg,
      flux_corrected := optSub r.flux avg }

/-- CycleBlankHandler.run (blank_handler.py lines 50-60): per gas, the
mean flux of the rows with cycle == index is joined (left) onto the rows
with cycle != index, and flux_corrected = flux − flux_blank_avg. -/
def cycle_blank_run (index : ℤ) (rows : List FluxRow) : List CorrRow :=
  (rows.filter fun r => decide (r.cycle ≠ index)).map fun r =>
    let avg := meanOpt ((rows.filter fun b =>
      decide (b.cycle = index ∧ b.gas = r.gas)).map fun b => b.flux)
    { cycle := r.cycle, sample := r.sample, datetime := r.datetime,
      gas := r.gas, flux := r.flux, flux_blank_avg := avg,
      flux_corrected := optSub r.flux avg }

/-- Subtracting an absent blank average gives null. -/
theorem optSub_none (x : Option ℚ) : optSub x none = none := by
  cases x <;> rfl

/-- C7: in sample-mode the blank handler joins the per-(cycle, gas) mean
of the sample == index rows onto exactly the sample != index rows (no
output row keeps the blank sample) and sets flux_corrected =
flux − flux_blank_avg; in cycle-mode the per-gas mean of the
cycle == index rows is joined onto exactly the cycle != index rows; in
both modes a group with no blank rows yields null flux_blank_avg and
null flux_corrected instead of an error, and all non-blank rows are
retained. -/
theorem blank_handler_matches_spec (index : ℤ) (rows : List FluxRow) :
    (∀ c ∈ sample_blank_run index rows, c.sample ≠ index) ∧
      ((sample_blank_run index rows).map
          (fun c => (c.cycle, c.sample, c.datetime, c.gas, c.flux))
        = (rows.filter fun r => decide (r.sample ≠ index)).map
            (fun r => (r.cycle, r.sample, r.datetime, r.gas, r.flux))) ∧
      (∀ c ∈ sample_blank_run index rows,
        c.flux_blank_avg = meanOpt ((rows.filter fun b =>
            decide (b.sample = index ∧ b.cycle = c.cycle ∧ b.gas = c.gas)).map
              fun b => b.flux) ∧
          c.flux_corrected = optSub c.flux c.flux_blank_avg ∧
          ((rows.filter fun b =>
              decide (b.sample = index ∧ b.cycle = c.cycle ∧ b.gas = c.gas)) = [] →
            c.flux_blank_avg = none ∧ c.flux_corrected = none)) ∧
      (∀ c ∈ cycle_blank_run index rows, c.cycle ≠ index) ∧
      ((cycle_blank_run index rows).map
          (fun c => (c.cycle, c.sample, c.datetime, c.gas, c.flux))
        = (rows.filter fun r => decide (r.cycle ≠ index)).map
            (fun r => (r.cycle, r.sample, r.datetime, r.gas, r.flux))) ∧
      (∀ c ∈ cycle_blank_run index rows,
        c.flux_blank_avg = meanOpt ((rows.filter fun b =>
            decide (b.cycle = index ∧ b.gas = c.gas)).map fun b => b.flux) ∧
          c.flux_corrected = optSub c.flux c.flux_blank_avg ∧
          ((rows.filter fun b => decide (b.cycle = index ∧ b.gas = c.gas)) = [] →
            c.flux_blank_avg = none ∧ c.flux_corrected = none)) := by
  refine ⟨fun c hc => ?_, ?_, fun c hc => ?_, fun c hc => ?_, ?_, fun c hc => ?_⟩
  · rcases List.mem_map.1 hc with ⟨r, hr, rfl⟩
    exact of_decide_eq_true (List.mem_filter.1 hr).2
  · unfold sample_blank_run
    rw [List.map_map]
    rfl
  · rcases List.mem_map.1 hc with ⟨r, hr, rfl⟩
    refine ⟨rfl, rfl, fun hempty => ?_⟩
    dsimp only at hempty ⊢
    rw [hempty]
    exact ⟨rfl, optSub_none _⟩
  · rcases List.mem_map.1 hc with ⟨r, hr, rfl⟩
    exact of_decide_eq_true (List.mem_filter.1 hr).2
  · unfold cycle_blank_run
    rw [List.map_map]
    rfl
  · rcases List.mem_map.1 hc with ⟨r, hr, rfl⟩
    refine ⟨rfl, rfl, fun hempty => ?_⟩
    dsimp only at hempty ⊢
    rw [hempty]
    exact ⟨rfl, optSub_none _⟩

/-- C7 witness: the blank-handler theorem applied in sample-mode with
blank index 1 to a two-row table whose cycle 1 has a blank row (sample 1)
for CO2; the kept row is the sample 2 row. -/
theorem blank_handler_matches_spec_witness :
    ((⟨1, 2, 0, "CO2", some 10,
        meanOpt ([(⟨1, 1, 0, "CO2", some 5⟩ : FluxRow)].map fun b => b.flux),
        optSub (some 10)
          (meanOpt ([(⟨1, 1, 0, "CO2", some 5⟩ : FluxRow)].map
            fun b => b.flux))⟩ : CorrRow)
        ∈ sample_blank_run 1
            [⟨1, 1, 0, "CO2", some 5⟩, ⟨1, 2, 0, "CO2", some 10⟩]) ∧
      ∀ c ∈ sample_blank_run 1
          [(⟨1, 1, 0, "CO2", some 5⟩ : FluxRow), ⟨1, 2, 0, "CO2", some 10⟩],
        c.sample ≠ 1 :=
  ⟨List.Mem.head _,
    (blank_handler_matches_spec 1
      [⟨1, 1, 0, "CO2", some 5⟩, ⟨1, 2, 0, "CO2", some 10⟩]).1⟩

/-- A Blank-Corrected Record annotated with the three windowed
aggregates of compute_statistics. -/
structure StatRow where
  cycle : ℤ
  sample : ℤ
  datetime : ℤ
  gas : String
  flux : Option ℚ
  flux_blank_avg : Option ℚ
  flux_corrected : Option ℚ
  flux_corrected_avg : Option ℝ
  flux_corrected_std : Option ℝ
  flux_corrected_sem : Option ℝ

/-- The (sample, cycle, gas) window of a row: all rows of the table
sharing its keys. -/
def groupOf (rows : List CorrRow) (r : CorrRow) : List CorrRow :=
  rows.filter fun x =>
    decide (x.sample = r.sample ∧ x.cycle = r.cycle ∧ x.gas = r.gas)

/-- The sample standard deviation (ddof = 1) that polars pl.std computes
over a window: null when fewer than two non-null values exist, otherwise
the square root of the sum of squared deviations from the mean divided
by n − 1. -/
noncomputable def sampleStd (vs : List (Option ℚ)) : Option ℝ :=
  let xs := vs.filterMap id
  if 2 ≤ xs.length then
    some (Real.sqrt
      ((((xs.map fun x => (x - xs.sum / (xs.length : ℚ)) ^ 2).sum
        / ((xs.length : ℚ) - 1) : ℚ) : ℝ)))
  else none

/-- compute_statistics from process.py (lines 67-75): three windowed
aggregates over each row's (sample, cycle, gas) group on flux_corrected
— mean, sample std, and std divided by the square root of the group row
count (pl.len counts all rows of the group, nulls included) — attached
to every row without collapsing the table. -/
noncomputable def compute_statistics (rows : List CorrRow) : List StatRow :=
  rows.map fun r =>
    let g := groupOf rows r
    let vals := g.map fun x => x.flux_corrected
    { cycle := r.cycle, sample := r.sample, datetime := r.datetime,
      gas := r.gas, flux := r.flux, flux_blank_avg := r.flux_blank_avg,
      flux_corrected := r.flux_corrected,
      flux_corrected_avg := (meanOpt vals).map fun q => (q : ℝ),
      flux_corrected_std := sampleStd vals,
      flux_corrected_sem := (sampleStd vals).map fun sd =>
        sd / Real.sqrt (g.length : ℝ) }

/-- C9: compute_statistics attaches to each row the arithmetic mean, the
sample standard deviation (n − 1 denominator) and the standard error
std / sqrt(group size) of flux_corrected over that row's
(sample, cycle, gas) group, leaving the row count unchanged; every row's
sem equals its std divided by sqrt of its group size, and rows of the
same group carry identical flux_corrected_avg. -/
theorem statistics_matches_spec (rows : List CorrRow) :
    (compute_statistics rows).length = rows.length ∧
      (∀ (i : ℕ) (r : CorrRow), rows[i]? = some r →
        (compute_statistics rows)[i]? = some
          { cycle := r.cycle, sample := r.sample, datetime := r.datetime,
            gas := r.gas, flux := r.flux,
            flux_blank_avg := r.flux_blank_avg,
            flux_corrected := r.flux_corrected,
            flux_corrected_avg :=
              (meanOpt ((groupOf rows r).map fun x => x.flux_corrected)).map
                fun q => (q : ℝ),
            flux_corrected_std :=
              sampleStd ((groupOf rows r).map fun x => x.flux_corrected),
            flux_corrected_sem :=
              (sampleStd ((groupOf rows r).map fun x =>
                x.flux_corrected)).map fun sd =>
                  sd / Real.sqrt ((groupOf rows r).length : ℝ) }) ∧
      (∀ st ∈ compute_statistics rows,
        st.flux_corrected_sem = st.flux_corrected_std.map fun sd =>
          sd / Real.sqrt (((rows.filter fun x =>
            decide (x.sample = st.sample ∧ x.cycle = st.cycle ∧
              x.gas = st.gas)).length : ℝ))) ∧
      (∀ (i j : ℕ) (ri rj : CorrRow), rows[i]? = some ri →
        rows[j]? = some rj → ri.sample = rj.sample → ri.cycle = rj.cycle →
        ri.gas = rj.gas →
        ((compute_statistics rows)[i]?).map (fun st => st.flux_corrected_avg)
          = ((compute_statistics rows)[j]?).map
              (fun st => st.flux_corrected_avg)) := by
  have hgroup : ∀ ri rj : CorrRow, ri.sample = rj.sample →
      ri.cycle = rj.cycle → ri.gas = rj.gas →
      groupOf rows ri = groupOf rows rj := by
    intro ri rj hs hc hg
    unfold groupOf
    rw [hs, hc, hg]
  refine ⟨List.length_map rows _, fun i r hi => ?_, fun st hst => ?_,
    fun i j ri rj hi hj hs hc hg => ?_⟩
  · unfold compute_statistics
    rw [List.getElem?_map, hi, Option.map_some']
  · rcases List.mem_map.1 hst with ⟨r, hr, rfl⟩
    rfl
  · unfold compute_statistics
    rw [List.getElem?_map, List.getElem?_map, hi, hj, Option.map_some',
      Option.map_some', Option.map_some', Option.map_some']
    dsimp only
    rw [hgroup ri rj hs hc hg]

/-- C9 witness: the statistics theorem applied to a two-row single-group
table, at indices 0 and 1. -/
theorem statistics_matches_spec_witness :
    (([(⟨1, 2, 0, "CO2", some 3, some 1, some 2⟩ : CorrRow),
        ⟨1, 2, 5, "CO2", some 5, some 1, some 4⟩] :
          List CorrRow)[0]? = some ⟨1, 2, 0, "CO2", some 3, some 1, some 2⟩) ∧
      (([(⟨1, 2, 0, "CO2", some 3, some 1, some 2⟩ : CorrRow),
        ⟨1, 2, 5, "CO2", some 5, some 1, some 4⟩] :
          List CorrRow)[1]? = some ⟨1, 2, 5, "CO2", some 5, some 1, some 4⟩) ∧
      ((compute_statistics [⟨1, 2, 0, "CO2", some 3, some 1, some 2⟩,
          ⟨1, 2, 5, "CO2", some 5, some 1, some 4⟩])[0]?).map
            (fun st => st.flux_corrected_avg)
        = ((compute_statistics [⟨1, 2, 0, "CO2", some 3, some 1, some 2⟩,
            ⟨1, 2, 5, "CO2", some 5, some 1, some 4⟩])[1]?).map
              (fun st => st.flux_corrected_avg) :=
  ⟨by decide, by decide,
    (statistics_matches_spec [⟨1, 2, 0, "CO2", some 3, some 1, some 2⟩,
        ⟨1, 2, 5, "CO2", some 5, some 1, some 4⟩]).2.2.2 0 1
      ⟨1, 2, 0, "CO2", some 3, some 1, some 2⟩
      ⟨1, 2, 5, "CO2", some 5, some 1, some 4⟩ (by decide) (by decide) rfl
      rfl rfl⟩

/-- Whitespace test used by strip-chars trimming. -/
def isSpaceChar (c : Char) : Bool :=
  c = ' ' ∨ c = '\t' ∨ c = '\n' ∨ c = '\r'

/-- Python str.strip / polars str.strip_chars: drop whitespace from both
ends. -/
def strTrim (s : String) : String :=
  String.mk (((s.data.dropWhile isSpaceChar).reverse.dropWhile
    isSpaceChar).reverse)

/-- Fuel-driven split on a separator pattern (first-occurrence,
non-overlapping), structural so that concrete inputs reduce in the
kernel; the fuel is always at least the character count plus one. -/
def splitSepFuel : ℕ → List Char → List Char → List (List Char)
  | 0, _, _ => [[]]
  | _ + 1, _, [] => [[]]
  | fuel + 1, sep, c :: cs =>
    if sep ≠ [] ∧ sep.isPrefixOf (c :: cs) then
      [] :: splitSepFuel fuel sep (List.drop (sep.length - 1) cs)
    else
      match splitSepFuel fuel sep cs with
      | [] => [[c]]
      | f :: rest => (c :: f) :: rest

/-- Python str.split(sep) on non-empty separators. -/
def pySplit (s sep : String) : List String :=
  (splitSepFuel (s.data.length + 1) sep.data s.data).map String.mk

/-- Substring test via split: s contains pat iff splitting on pat yields
more than one piece. -/
def strContains (s pat : String) : Bool := (pySplit s pat).length > 1

/-- Header scan of detect_header_row (process.py lines 19-29): the first
line whose first separator-delimited field the dateutil parser accepts is
the first data row, and its line number minus one is returned; an
exhausted file raises ValueError("failed to detect header"). The
dateutil parser is an external dependency, passed as a predicate. -/
def headerScan (parses : String → Bool) (sep : String) :
    List String → ℕ → Except PyError ℤ
  | [], _ => .error (.valueError "failed to detect header")
  | line :: rest, i =>
    if parses ((pySplit line sep).headD "") then .ok ((i : ℤ) - 1)
    else headerScan parses sep rest (i + 1)

/-- detect_header_row from process.py. -/
def detect_header_row (parses : String → Bool) (lines : List String)
    (separator : String) : Except PyError ℤ :=
  headerScan parses separator lines 0

/-- pl.scan_csv restricted to what the pipeline observes: skip the first
skip_rows lines, read the next line as the header, and build one string
column per header field (missing trailing fields read as empty). -/
def scan_csv (lines : List String) (sep : String) (skip : ℤ) :
    List (String × List String) :=
  match lines.drop skip.toNat with
  | [] => []
  | header :: dataRows =>
    (pySplit header sep).enum.map fun jn =>
      (jn.2, dataRows.map fun line => (pySplit line sep).getD jn.1 "")

/-- Non-strict cast of a trimmed string to a float, as polars
cast(Float64, strict=False): optional sign, digits with optional decimal
point and optional exponent; anything else becomes null. The numeric
value is exact over ℚ. -/
def parseUnsigned (cs : List Char) : ℕ × ℕ × List Char :=
  match cs with
  | [] => (0, 0, [])
  | c :: rest =>
    match digitVal c with
    | none => (0, 0, c :: rest)
    | some v =>
      let r := parseUnsigned rest
      (v * 10 ^ r.2.1 + r.1, r.2.1 + 1, r.2.2)

/-- Parse the digits after the decimal point: value and count. -/
def pyFloatCastCore (cs : List Char) : Option ℚ :=
  let (sign, cs1) : ℚ × List Char :=
    match cs with
    | '-' :: rest => (-1, rest)
    | '+' :: rest => (1, rest)
    | _ => (1, cs)
  let (ip, ipLen, cs2) := parseUnsigned cs1
  let (fp, fpLen, cs3) : ℕ × ℕ × List Char :=
    match cs2 with
    | '.' :: rest => parseUnsigned rest
    | _ => (0, 0, cs2)
  if ipLen = 0 ∧ fpLen = 0 then none
  else
    let mantissa : ℚ := sign * ((ip : ℚ) + (fp : ℚ) / (10 ^ fpLen : ℕ))
    match cs3 with
    | [] => some mantissa
    | e :: rest =>
      if e = 'e' ∨ e = 'E' then
        let (esign, rest2) : Bool × List Char :=
          match rest with
          | '-' :: r2 => (true, r2)
          | '+' :: r2 => (false, r2)
          | _ => (false, rest)
        let (ev, evLen, rest3) := parseUnsigned rest2
        if evLen = 0 ∨ rest3 ≠ [] then none
        else if esign then some (mantissa / (10 ^ ev : ℕ))
        else some (mantissa * (10 ^ ev : ℕ))
      else none

/-- Trim then cast, null on failure. -/
def pyFloatCast (s : String) : Option ℚ := pyFloatCastCore (strTrim s).data

/-- The instrument column-name lookup of DataStandardizer (lines 7-28). -/
def GAS_IDENTIFIERS : List (String × String) :=
  [("Ammonia / ppm (cal)", "NH3"), ("NH3 / ppm (cal)", "NH3"),
   ("NO2 (ppb)", "NO2"), ("Nitrogen Dioxide / ppm (cal)", "NO2"),
   ("NO2 / ppm (cal)", "NO2"), ("Nitrous Oxide / ppm (cal)", "N2O"),
   ("N2O / ppm (cal)", "N2O"), ("Ozone / ppm (cal)", "O3"),
   ("O3 / ppm (cal)", "O3"), ("HONO (ppb)", "HONO"), ("NO Conc", "NO"),
   ("NOY Conc", "NOY"), ("NOY-NO Conc", "NOY-NO"),
   ("Carbon Monoxide / ppm (cal)", "CO"), ("CO / ppm (cal)", "CO"),
   ("CO2 (ppm)", "CO2"), ("Carbon Dioxide / ppm (cal)", "CO2"),
   ("CO2 / ppm (cal)", "CO2"), ("Methane / ppm (cal)", "CH4"),
   ("CH4 / ppm (cal)", "CH4")]

/-- DataStandardizer._detect_unit (lines 86-93): "ppm" in the name wins,
then "ppb", then "Conc" (counted as ppm); otherwise
ValueError("failed to detect unit for column ..."). -/
def detect_unit (name : String) : Except PyError String :=
  if strContains name "ppm" then .ok "ppm"
  else if strContains name "ppb" then .ok "ppb"
  else if strContains name "Conc" then .ok "ppm"
  else .error (.valueError ("failed to detect unit for column '" ++ name ++ "'"))

/-- DataStandardizer.run (lines 30-38) on a raw string-column table: the
first column is renamed to datetime and parsed
(_standardize_datetime); only recognized gas columns are kept
(_select_input_columns); values are trimmed and cast to floats with
nulls on failure (_strip_whitespace); names become gas_unit
(_sanitize_column_names with _detect_unit); units are converted
(_standardize_units); the unit suffix is stripped
(_remove_units_from_names). -/
def standardizer_run (cols : List (String × List String)) :
    Except PyError GasFrame := do
  match cols with
  | [] => .error .indexError
  | c0 :: restCols =>
    let dts ← standardize_datetime c0.2
    let gasCols := restCols.filter fun nv =>
      (GAS_IDENTIFIERS.lookup (strTrim nv.1)).isSome
    let floatCols := gasCols.map fun nv => (nv.1, nv.2.map pyFloatCast)
    let renamed ← floatCols.mapM fun nv =>
      match GAS_IDENTIFIERS.lookup (strTrim nv.1) with
      | some gas => do
        let unit ← detect_unit nv.1
        pure (gas ++ "_" ++ unit, nv.2)
      | none => pure (nv.1, nv.2)
    let f2 := standardize_units ⟨dts, renamed⟩
    pure { f2 with cols := f2.cols.map fun nv =>
      ((pySplit nv.1 "_").headD "", nv.2) }

/-- One labeled wide row: datetime, cycle, sample, and the gas values in
column order. -/
structure LabeledRow where
  datetime : ℤ
  cycle : ℤ
  sample : ℤ
  vals : List (Option ℚ)
deriving DecidableEq, Repr

/-- Attach the cycle/sample labels of label_rows_by_time to each row of a
standardized frame. -/
def frameRows (f : GasFrame) (cycles : ℤ) (st : ℚ) (samples : ℤ) :
    List LabeledRow :=
  (label_rows_by_time f.datetimes cycles st samples).enum.map fun itrip =>
    { datetime := itrip.2.1, cycle := itrip.2.2.1, sample := itrip.2.2.2,
      vals := f.cols.map fun nv => nv.2.getD itrip.1 none }

/-- Lexicographic (cycle, sample, datetime) order of
remove_transition_minutes and the final output sort. -/
def rowKeyLe (a b : LabeledRow) : Bool :=
  if a.cycle ≠ b.cycle then decide (a.cycle < b.cycle)
  else if a.sample ≠ b.sample then decide (a.sample < b.sample)
  else decide (a.datetime ≤ b.datetime)

/-- Minimum datetime over the (cycle, sample) window of a row. -/
def windowMinDatetime (rows : List LabeledRow) (r : LabeledRow) : ℤ :=
  match (rows.filter fun x =>
    decide (x.cycle = r.cycle ∧ x.sample = r.sample)).map
      (fun x => x.datetime) with
  | [] => r.datetime
  | d :: ds => ds.foldl min d

/-- remove_transition_minutes from process.py (lines 53-58): sort by
(cycle, sample, datetime) and keep rows at least buffer minutes after
their window start. -/
def remove_transition_minutes (rows : List LabeledRow) (buffer : ℤ) :
    List LabeledRow :=
  (rows.mergeSort rowKeyLe).filter fun r =>
    decide (windowMinDatetime rows r + buffer * 60 ≤ r.datetime)

/-- unpivot from process.py (lines 61-64): one long row per gas column per
table row, in column-major order. -/
def unpivot (gasNames : List String) (rows : List LabeledRow) :
    List LongRow :=
  gasNames.enum.flatMap fun jg =>
    rows.map fun r =>
      { cycle := r.cycle, sample := r.sample, datetime := r.datetime,
        gas := jg.2, concentration := r.vals.getD jg.1 none }

/-- The metric columns unpivoted by reformat_for_output, in frame order. -/
def metricNames : List String :=
  ["flux", "flux_blank_avg", "flux_corrected", "flux_corrected_avg",
   "flux_corrected_std", "flux_corrected_sem"]

/-- Value of one metric column of a statistics row (rationals cast to the
common value type). -/
def metricValue (r : StatRow) : String → Option ℝ := fun name =>
  if name = "flux" then r.flux.map fun q => (q : ℝ)
  else if name = "flux_blank_avg" then r.flux_blank_avg.map fun q => (q : ℝ)
  else if name = "flux_corrected" then r.flux_corrected.map fun q => (q : ℝ)
  else if name = "flux_corrected_avg" then r.flux_corrected_avg
  else if name = "flux_corrected_std" then r.flux_corrected_std
  else if name = "flux_corrected_sem" then r.flux_corrected_sem
  else none

/-- Lexicographic order on the (cycle, sample, datetime) output keys. -/
def outKeyLe (a b : (ℤ × ℤ × ℤ) × List (String × Option ℝ)) : Bool :=
  if a.1.1 ≠ b.1.1 then decide (a.1.1 < b.1.1)
  else if a.1.2.1 ≠ b.1.2.1 then decide (a.1.2.1 < b.1.2.1)
  else decide (a.1.2.2 ≤ b.1.2.2)

/-- reformat_for_output from process.py (lines 120-136): unpivot the six
metric columns tagged by (gas, metric), name them gas_metric, pivot back
to one row per (cycle, sample, datetime) with first-value aggregation,
and sort by (cycle, sample, datetime). -/
noncomputable def reformat_for_output (rows : List StatRow) :
    List ((ℤ × ℤ × ℤ) × List (String × Option ℝ)) :=
  let long : List ((ℤ × ℤ × ℤ) × String × Option ℝ) :=
    metricNames.flatMap fun mname =>
      rows.map fun r =>
        ((r.cycle, r.sample, r.datetime), r.gas ++ "_" ++ mname,
          metricValue r mname)
  let keys := (long.map fun e => e.1).eraseDups
  let colNames := (long.map fun e => e.2.1).eraseDups
  let table := keys.map fun k =>
    (k, colNames.map fun cn =>
      (cn, ((long.find? fun e =>
        decide (e.1 = k) && decide (e.2.1 = cn)).map fun e => e.2.2).getD none))
  table.mergeSort outKeyLe

/-- Config.SampleConfig from config.py (lines 12-26): the four sampling
parameters, stored unvalidated. -/
structure SampleConfig where
  total_cycles : ℤ
  samples_per_cycle : ℤ
  minutes_per_sample : ℤ
  discard_minutes : ℤ
deriving DecidableEq, Repr

/-- Config.FluxConfig from config.py (lines 28-35): exactly the two
fields flow_rate and soil_surface_area — there is no chamber_volume
field. -/
structure FluxConfig where
  flow_rate : ℚ
  soil_surface_area : ℚ
deriving DecidableEq, Repr

/-- Config.BlankConfig from config.py (lines 37-50): the blank mode
string and index, stored unvalidated. -/
structure BlankConfig where
  mode : String
  index : ℤ
deriving DecidableEq, Repr

/-- The configuration bundle of config.py. -/
structure Config where
  samples : SampleConfig
  flux : FluxConfig
  blank : BlankConfig
deriving DecidableEq, Repr

/-- Python attribute access on a FluxConfig dataclass instance: the two
declared fields resolve, any other name raises AttributeError. -/
def FluxConfig.pyattr (c : FluxConfig) (attr : String) : Except PyError ℚ :=
  if attr = "flow_rate" then .ok c.flow_rate
  else if attr = "soil_surface_area" then .ok c.soil_surface_area
  else .error (.attributeError attr)

/-- The two blank-correction strategies. -/
inductive BlankHandler where
  | sampleHandler (index : ℤ)
  | cycleHandler (index : ℤ)
deriving DecidableEq, Repr

/-- BlankHandler.create_handler (blank_handler.py lines 15-21): "sample"
and "cycle" are the only accepted modes; anything else — including the
modes "multiplexed" and "single" documented in config.py — raises
ValueError("unsupported blank mode"). -/
def create_handler (config : BlankConfig) : Except PyError BlankHandler :=
  if config.mode = "sample" then .ok (.sampleHandler config.index)
  else if config.mode = "cycle" then .ok (.cycleHandler config.index)
  else .error (.valueError "unsupported blank mode")

/-- BlankHandler.run dispatch. -/
def BlankHandler.run : BlankHandler → List FluxRow → List CorrRow
  | .sampleHandler i, rows => sample_blank_run i rows
  | .cycleHandler i, rows => cycle_blank_run i rows

/-- An input file as the pipeline observes it: its extension and its
lines. -/
structure InputFile where
  suffix : String
  lines : List String

/-- process_file from process.py (lines 139-181), with the external
dateutil parser passed as a predicate: separator and header detection,
lazy CSV scan, handler creation, standardization, labeling, trimming,
unpivoting — and then the flux-stage arguments are evaluated, reading
config.flux.flow_rate and config.flux.chamber_volume in order; the
latter is not a field of FluxConfig, so the pipeline assembly raises
AttributeError before compute_flux, blank correction, statistics or
output reshaping can run. -/
noncomputable def process_file (file : InputFile) (config : Config)
    (dateutil_parses : String → Bool) :
    Except PyError (List ((ℤ × ℤ × ℤ) × List (String × Option ℝ))) := do
  let separator := detect_separator file.suffix
  let skip_rows ← detect_header_row dateutil_parses file.lines separator
  let lf := scan_csv file.lines separator skip_rows
  let blank_handler ← create_handler config.blank
  let std ← standardizer_run lf
  let labeledRows := frameRows std config.samples.total_cycles
    (config.samples.minutes_per_sample : ℚ) config.samples.samples_per_cycle
  let trimmed := remove_transition_minutes labeledRows
    config.samples.discard_minutes
  let long := unpivot (std.cols.map fun nv => nv.1) trimmed
  let flow ← FluxConfig.pyattr config.flux "flow_rate"
  let chamber_volume ← FluxConfig.pyattr config.flux "chamber_volume"
  let ssa ← FluxConfig.pyattr config.flux "soil_surface_area"
  let fluxRows := compute_flux long flow chamber_volume ssa
  let corrected := blank_handler.run fluxRows
  let stats := compute_statistics corrected
  pure (reformat_for_output stats)

/-- Whether an Except value is a success, as a boolean. -/
def exceptIsOk {ε α : Type} : Except ε α → Bool
  | .ok _ => true
  | .error _ => false

/-- exceptIsOk characterization. -/
theorem exceptIsOk_iff {ε α : Type} (x : Except ε α) :
    exceptIsOk x = true ↔ ∃ a, x = .ok a := by
  cases x <;> simp [exceptIsOk]

/-- Bind of a success reduces to the continuation. -/
theorem except_bind_ok {ε α β : Type} (a : α) (f : α → Except ε β) :
    ((Except.ok a : Except ε α) >>= f) = f a := rfl

/-- Bind of a failure short-circuits. -/
theorem except_bind_error {ε α β : Type} (e : ε) (f : α → Except ε β) :
    ((Except.error e : Except ε α) >>= f) = .error e := rfl

/-- After a successful prefix (header detection, handler creation,
standardization), process_file reaches the flux-stage argument list and
fails reading config.flux.chamber_volume. -/
theorem process_file_reaches_flux_args (file : InputFile) (config : Config)
    (g : String → Bool) (skip : ℤ) (hdl : BlankHandler) (std : GasFrame)
    (h1 : detect_header_row g file.lines (detect_separator file.suffix)
      = .ok skip)
    (h2 : create_handler config.blank = .ok hdl)
    (h3 : standardizer_run
      (scan_csv file.lines (detect_separator file.suffix) skip) = .ok std) :
    process_file file config g = .error (.attributeError "chamber_volume") := by
  have hfa : FluxConfig.pyattr config.flux "flow_rate"
      = .ok config.flux.flow_rate := by
    unfold FluxConfig.pyattr
    rw [if_pos rfl]
  have hcv : FluxConfig.pyattr config.flux "chamber_volume"
      = .error (.attributeError "chamber_volume") := by
    unfold FluxConfig.pyattr
    rw [if_neg (by decide), if_neg (by decide)]
  unfold process_file
  simp only [h1, except_bind_ok, h2, h3, hfa, hcv, except_bind_error]

/-- C10: for every input file, configuration and dateutil behavior,
process_file never returns an output table, and whenever the stages
before the flux computation succeed it raises exactly
AttributeError("chamber_volume"), because it reads
config.flux.chamber_volume while assembling the pipeline and
Config.FluxConfig has exactly the fields flow_rate and
soil_surface_area. -/
theorem process_file_never_returns (file : InputFile) (config : Config)
    (g : String → Bool) :
    (∀ out, process_file file config g ≠ .ok out) ∧
      (∀ (skip : ℤ) (hdl : BlankHandler),
        detect_header_row g file.lines (detect_separator file.suffix)
          = .ok skip →
        create_handler config.blank = .ok hdl →
        exceptIsOk (standardizer_run
          (scan_csv file.lines (detect_separator file.suffix) skip)) = true →
        process_file file config g
          = .error (.attributeError "chamber_volume")) := by
  constructor
  · intro out hout
    cases hh : detect_header_row g file.lines (detect_separator file.suffix) with
    | error e =>
      unfold process_file at hout
      simp only [hh, except_bind_error] at hout
      simp at hout
    | ok skip =>
      cases hc : create_handler config.blank with
      | error e =>
        unfold process_file at hout
        simp only [hh, except_bind_ok, hc, except_bind_error] at hout
        simp at hout
      | ok hdl =>
        cases hs : standardizer_run
            (scan_csv file.lines (detect_separator file.suffix) skip) with
        | error e =>
          unfold process_file at hout
          simp only [hh, except_bind_ok, hc, hs, except_bind_error] at hout
          simp at hout
        | ok std =>
          rw [process_file_reaches_flux_args file config g skip hdl std hh hc hs]
            at hout
          simp at hout
  · intro skip hdl h1 h2 h3
    rcases (exceptIsOk_iff _).1 h3 with ⟨std, hstd⟩
    exact process_file_reaches_flux_args file config g skip hdl std h1 h2 hstd

/-- C10 witness: the theorem applied to a concrete two-row CO2 CSV whose
prefix stages all succeed, with a dateutil stand-in that accepts
everything but the header word. -/
theorem process_file_never_returns_witness :
    (detect_header_row (fun s => decide (s ≠ "time"))
        ["time,CO2 (ppm)", "01/02/2025 11:00,1.0", "01/02/2025 11:01,2.0"]
        (detect_separator ".csv") = .ok 0) ∧
      create_handler ⟨"sample", 1⟩ = .ok (.sampleHandler 1) ∧
      exceptIsOk (standardizer_run (scan_csv
        ["time,CO2 (ppm)", "01/02/2025 11:00,1.0", "01/02/2025 11:01,2.0"]
        (detect_separator ".csv") 0)) = true ∧
      process_file
          ⟨".csv", ["time,CO2 (ppm)", "01/02/2025 11:00,1.0",
            "01/02/2025 11:01,2.0"]⟩
          ⟨⟨22, 6, 10, 2⟩, ⟨0.1, 0.05⟩, ⟨"sample", 1⟩⟩
          (fun s => decide (s ≠ "time"))
        = .error (.attributeError "chamber_volume") :=
  ⟨by decide, by decide, by decide,
    (process_file_never_returns
      ⟨".csv", ["time,CO2 (ppm)", "01/02/2025 11:00,1.0",
        "01/02/2025 11:01,2.0"]⟩
      ⟨⟨22, 6, 10, 2⟩, ⟨0.1, 0.05⟩, ⟨"sample", 1⟩⟩
      (fun s => decide (s ≠ "time"))).2 0 (.sampleHandler 1)
      (by decide) (by decide) (by decide)⟩

/-- C8 counterexample: the configuration with total_cycles = 0 (violating
the stated total_cycles > 0 constraint) and blank mode "sample" is
accepted by handler creation, the labeler processes every row without
any error, and the run on a well-formed input file fails with
AttributeError("chamber_volume") — not with a ConfigurationError, which
does not exist in the code. -/
theorem config_validation_counterexample :
    create_handler ⟨"sample", 1⟩ = .ok (.sampleHandler 1) ∧
      (label_rows_by_time [0, 60] 0 1 2).length = 2 ∧
      process_file
          ⟨".csv", ["time,CO2 (ppm)", "01/02/2025 11:00,1.0",
            "01/02/2025 11:01,2.0"]⟩
          ⟨⟨0, 6, 10, 2⟩, ⟨0.1, 0.05⟩, ⟨"sample", 1⟩⟩
          (fun s => decide (s ≠ "time"))
        = .error (.attributeError "chamber_volume") := by
  refine ⟨by decide, ?_, by decide⟩
  rfl

/-- C8 as the code actually behaves: only the blank mode is checked —
any mode other than "sample" or "cycle" (including the documented
"multiplexed" and "single") makes create_handler raise
ValueError("unsupported blank mode"), and with such a mode process_file
fails before producing output whenever header detection succeeds; the
numeric constraints (total_cycles, samples_per_cycle,
minutes_per_sample, discard_minutes, flow_rate, soil_surface_area) are
never validated — the labeler processes every row for every parameter
value — and no ConfigurationError exists. -/
theorem config_validation_amended :
    (∀ (mode : String) (index : ℤ), mode ≠ "sample" → mode ≠ "cycle" →
        create_handler ⟨mode, index⟩
          = .error (.valueError "unsupported blank mode")) ∧
      (create_handler ⟨"multiplexed", 1⟩
          = .error (.valueError "unsupported blank mode") ∧
        create_handler ⟨"single", 1⟩
          = .error (.valueError "unsupported blank mode")) ∧
      (∀ index : ℤ,
        create_handler ⟨"sample", index⟩ = .ok (.sampleHandler index) ∧
          create_handler ⟨"cycle", index⟩ = .ok (.cycleHandler index)) ∧
      (∀ (ts : List ℤ) (cycles : ℤ) (st : ℚ) (samples : ℤ),
        (label_rows_by_time ts cycles st samples).length = ts.length) ∧
      (∀ (file : InputFile) (config : Config) (g : String → Bool) (skip : ℤ),
        config.blank.mode ≠ "sample" → config.blank.mode ≠ "cycle" →
        detect_header_row g file.lines (detect_separator file.suffix)
          = .ok skip →
        process_file file config g
          = .error (.valueError "unsupported blank mode")) := by
  refine ⟨fun mode index hm1 hm2 => ?_, ⟨by decide, by decide⟩,
    fun index => ⟨rfl, rfl⟩, fun ts cycles st samples => ?_,
    fun file config g skip hm1 hm2 hdet => ?_⟩
  · unfold create_handler
    rw [if_neg hm1, if_neg hm2]
  · cases ts with
    | nil => rfl
    | cons t0 rest => simp [label_rows_by_time]
  · have hch : create_handler config.blank
        = .error (.valueError "unsupported blank mode") := by
      unfold create_handler
      rw [if_neg hm1, if_neg hm2]
    unfold process_file
    simp only [hdet, except_bind_ok, hch, except_bind_error]

/-- C8 witness: the amended theorem applied to the documented blank mode
"multiplexed", to the labeler with total_cycles = 0, and to a concrete
file with an unsupported mode. -/
theorem config_validation_amended_witness :
    ("multiplexed" ≠ "sample") ∧ ("multiplexed" ≠ "cycle") ∧
      create_handler ⟨"multiplexed", 7⟩
        = .error (.valueError "unsupported blank mode") ∧
      (label_rows_by_time [0, 60] 0 1 2).length = ([0, 60] : List ℤ).length ∧
      (detect_header_row (fun s => decide (s ≠ "time"))
          ["time,CO2 (ppm)", "01/02/2025 11:00,1.0"]
          (detect_separator ".csv") = .ok 0) ∧
      process_file ⟨".csv", ["time,CO2 (ppm)", "01/02/2025 11:00,1.0"]⟩
          ⟨⟨22, 6, 10, 2⟩, ⟨0.1, 0.05⟩, ⟨"multiplexed", 1⟩⟩
          (fun s => decide (s ≠ "time"))
        = .error (.valueError "unsupported blank mode") :=
  ⟨by decide, by decide,
    config_validation_amended.1 "multiplexed" 7 (by decide) (by decide),
    config_validation_amended.2.2.2.1 [0, 60] 0 1 2,
    by decide,
    config_validation_amended.2.2.2.2
      ⟨".csv", ["time,CO2 (ppm)", "01/02/2025 11:00,1.0"]⟩
      ⟨⟨22, 6, 10, 2⟩, ⟨0.1, 0.05⟩, ⟨"multiplexed", 1⟩⟩
      (fun s => decide (s ≠ "time")) 0 (by decide) (by decide) (by decide)⟩

/-- C3: `detect_separator` as implemented is a total fixed lookup on the
extension that never fails: it returns a comma for every extension other
than ".dat", including ".log" (for which the test suite expects a tab)
and including unrecognized extensions such as ".txt" junk files (for
which the test suite expects a ValueError); no UnsupportedFormat error
exists in the function. -/
theorem detect_separator_never_fails :
    detect_separator ".log" = "," ∧ detect_separator ".txt" = "," ∧
      detect_separator ".dat" = "\t" ∧
      ∀ suffix : String, detect_separator suffix = "\t" ∨
        detect_separator suffix = "," := by
  refine ⟨by decide, by decide, by decide, fun suffix => ?_⟩
  unfold detect_separator
  split
  · exact Or.inl rfl
  · exact Or.inr rfl

end Fluxpro

